import Mathlib

/-!
Shallow embedding of the agent-finder real-estate crawler
(`src/api_crawler.py`, `src/api_region_search.py`, `src/data_exporter.py`)
and proofs about its pagination discovery, listing scrape, detail
enrichment, progress reporting and export behaviour.

HTML documents are modelled structurally: a listing page is its table rows
(lists of cells, each with text and an optional anchor) plus its pagination
anchors; a detail page is the list of its text nodes.  The network is a
deterministic environment (`World`) mapping listing page numbers and
`mem_no` identifiers to fetch outcomes; each issued request is recorded as
an `Event` so that request counts and callback invocations are observable.
Python string helpers (`strip`, `splitlines`, `isdigit`) and the two
regular expressions used by the crawler are translated into executable
character-list functions.
-/

/-- Characters removed by Python `str.strip()` (ASCII whitespace). -/
def isPySpace (c : Char) : Bool :=
  c == ' ' || c == '\t' || c == '\n' || c == '\r' || c == Char.ofNat 11 || c == Char.ofNat 12

/-- Python `str.strip()`. -/
def pyStrip (s : String) : String :=
  String.mk (((s.toList.dropWhile isPySpace).reverse.dropWhile isPySpace).reverse)

/-- Numeric value of a digit string (used where Python calls `int(...)`). -/
def natFromDigits (cs : List Char) : Nat :=
  cs.foldl (fun n c => 10 * n + (c.toNat - 48)) 0

/-- Python `s.isdigit()` followed by `int(s)`: `some` value iff `s` is a
nonempty all-digit string. -/
def pyParseDigits (s : String) : Option Nat :=
  if s.length ≠ 0 && s.toList.all Char.isDigit then some (natFromDigits s.toList) else none

/-- Search for the regex `page=(\d+)` in a character list: first position
where `page=` is followed by at least one digit; returns the digit run. -/
def pageParamAux : List Char → Option Nat
  | [] => none
  | c :: cs =>
      let s := c :: cs
      if "page=".toList.isPrefixOf s then
        let ds := (s.drop 5).takeWhile Char.isDigit
        if ds.isEmpty then pageParamAux cs else some (natFromDigits ds)
      else pageParamAux cs

/-- An HTML anchor element: its text and its `href` attribute
(`""` models an absent attribute, which is falsy in Python like `None`). -/
structure Anchor where
  text : String
  href : String
deriving DecidableEq, Repr

/-- A table cell (`td`): its text and the first anchor inside it, if any
(`select_one` result). -/
structure Cell where
  text : String
  anchor : Option Anchor
deriving DecidableEq, Repr

/-- A table row (`tr`) is its list of `td` cells. -/
abbrev Row := List Cell

/-- A rendered listing page: the rows returned by `soup.select('table tr')`
(header row included) and the anchors returned by
`soup.select('.pagination a, a[href*="page="]')`. -/
structure ListingPage where
  rows : List Row
  paginationLinks : List Anchor
deriving DecidableEq, Repr

/-- A rendered detail page: the document's text nodes, which
`find_all(text=re.compile(...))` filters. -/
structure DetailPage where
  textNodes : List String
deriving DecidableEq, Repr

/-- Outcome of one HTTP request: a parsed 200 response, a non-200 response,
or an exception raised by the HTTP client. -/
inductive FetchOutcome (α : Type) where
  | ok (a : α)
  | badStatus (status : Nat)
  | raise
deriving DecidableEq, Repr

/-- Anchor text is `>>` or `»` (the jump-to-last-page control). -/
def isLastPageCtrl (a : Anchor) : Bool :=
  pyStrip a.text == ">>" || pyStrip a.text == "»"

/-- The `href` of the first `>>`/`»` pagination anchor (`""` when there is
none, matching Python's falsy `None`). -/
def lastPageHref (links : List Anchor) : String :=
  match links.find? isLastPageCtrl with
  | some l => l.href
  | none => ""

/-- Numeric page links: `int(a.text.strip())` for anchors whose stripped
text `isdigit()`. -/
def numericPageLinks (links : List Anchor) : List Nat :=
  links.filterMap (fun a => pyParseDigits (pyStrip a.text))

/-- Pagination parsing inside `get_total_pages` (src/api_crawler.py lines
251-277): prefer the `page=` parameter of the `>>` link; if that link is
absent, empty, or lacks a `page=` match, fall back to the maximum numeric
page link; default to 1. -/
def get_total_pages_of_page (page : ListingPage) : Nat :=
  if page.paginationLinks.isEmpty then 1
  else
    let lastHref := lastPageHref page.paginationLinks
    let fromLast := if lastHref ≠ "" then pageParamAux lastHref.toList else none
    match fromLast with
    | some n => n
    | none =>
        let nums := numericPageLinks page.paginationLinks
        if nums.isEmpty then 1 else nums.foldl max 0

/-- The method `get_total_pages` (src/api_crawler.py lines 208-281) applied
to the outcome of its page-1 fetch: non-200 status returns 0 (line 245), a
raised exception returns 1 (line 281), a parsed page is inspected for
pagination controls. -/
def get_total_pages (fetch : FetchOutcome ListingPage) : Nat :=
  match fetch with
  | .ok page => get_total_pages_of_page page
  | .badStatus _ => 0
  | .raise => 1

/-- In-loop pagination discovery of `_scrape_office_data_from_html`
(src/api_crawler.py lines 438-464): if a `>>` link with nonempty href
exists, use its `page=` parameter or else keep the initial total of 1
(its `elif` skips the numeric fallback); otherwise use the maximum numeric
page link; default 1. -/
def discoverTotalPages (page : ListingPage) : Nat :=
  if page.paginationLinks.isEmpty then 1
  else
    let nums := numericPageLinks page.paginationLinks
    let lastHref := lastPageHref page.paginationLinks
    if lastHref ≠ "" then
      match pageParamAux lastHref.toList with
      | some n => n
      | none => 1
    else if nums.isEmpty then 1 else nums.foldl max 0

/-- The pattern `moveDetail('` of the regex `moveDetail\('(\d+)',`
(src/api_crawler.py line 490); the quote character is `Char.ofNat 39`. -/
def moveDetailPat : List Char :=
  ['m', 'o', 'v', 'e', 'D', 'e', 't', 'a', 'i', 'l', '(', Char.ofNat 39]

/-- The closing pattern `',` that must follow the captured digits. -/
def moveDetailClose : List Char := [Char.ofNat 39, ',']

/-- Search for the regex `moveDetail\('(\d+)',` in a character list and
return the captured digit group, if any. -/
def memNoAux : List Char → Option String
  | [] => none
  | c :: cs =>
      let s := c :: cs
      if moveDetailPat.isPrefixOf s then
        let rest := s.drop 12
        let ds := rest.takeWhile Char.isDigit
        if !ds.isEmpty && moveDetailClose.isPrefixOf (rest.drop ds.length) then
          some (String.mk ds)
        else memNoAux cs
      else memNoAux cs

/-- Extraction of `mem_no` from an anchor's `href`
(src/api_crawler.py lines 489-494). -/
def memNoSearch (href : String) : Option String :=
  memNoAux href.toList

/-- Match exactly `n` digits, returning the remaining characters. -/
def matchDigits : Nat → List Char → Option (List Char)
  | 0, cs => some cs
  | _ + 1, [] => none
  | n + 1, c :: cs => if c.isDigit then matchDigits n cs else none

/-- Match `\d{a}-\d{b}-\d{4}` at the head of a character list. -/
def phoneShapeAt (a b : Nat) (cs : List Char) : Bool :=
  match matchDigits a cs with
  | some ('-' :: cs2) =>
      match matchDigits b cs2 with
      | some ('-' :: cs3) => (matchDigits 4 cs3).isSome
      | _ => false
  | _ => false

/-- Match the phone regex `\d{2,3}-\d{3,4}-\d{4}|010-\d{4}-\d{4}` at the
head of a character list (the second alternative is an instance of the
first, so the four count combinations of the first suffice). -/
def phoneAt (cs : List Char) : Bool :=
  phoneShapeAt 2 3 cs || phoneShapeAt 2 4 cs || phoneShapeAt 3 3 cs || phoneShapeAt 3 4 cs

/-- Regex search: some position of the character list starts a phone-shaped
substring. -/
def hasPhoneAux : List Char → Bool
  | [] => false
  | c :: cs => phoneAt (c :: cs) || hasPhoneAux cs

/-- A string contains a phone-number-shaped substring: the test applied by
`find_all(text=re.compile(r'(\d{2,3}-\d{3,4}-\d{4}|010-\d{4}-\d{4})'))`
to each text node (src/api_crawler.py lines 344 and 521). -/
def containsPhone (s : String) : Bool :=
  hasPhoneAux s.toList

/-- Match `\d{a}-\d{b}-\d{4}` against a whole character list (no trailing
characters allowed). -/
def matchPhoneWhole (a b : Nat) (cs : List Char) : Bool :=
  match matchDigits a cs with
  | some ('-' :: cs2) =>
      match matchDigits b cs2 with
      | some ('-' :: cs3) => matchDigits 4 cs3 == some []
      | _ => false
  | _ => false

/-- A string is in its entirety a phone-number-shaped substring (used to
state what the enriched field ought to consist of). -/
def isPhoneShaped (s : String) : Bool :=
  let cs := s.toList
  (matchPhoneWhole 2 3 cs) || (matchPhoneWhole 2 4 cs) ||
    (matchPhoneWhole 3 3 cs) || (matchPhoneWhole 3 4 cs)

/-- Observable side effects of a scrape: each HTTP request issued and each
progress-callback invocation, in program order. -/
inductive Event where
  | fetchListing (page : Nat)
  | fetchDetail (memNo : String)
  | callback (currentPage totalPages accumulated : Nat)
deriving DecidableEq, Repr

/-- The deterministic network environment: what each listing-page request
and each detail-page request returns during the scrape. -/
structure World where
  listingPages : Nat → FetchOutcome ListingPage
  detailPages : String → FetchOutcome DetailPage

/-- Region names as resolved by the `_get_*_name_by_code` lookups
(src/api_crawler.py lines 531-533); `""` models an absent district or
sub-district code. -/
structure RegionNames where
  sido : String
  sigungu : String
  dong : String

/-- A progress callback; the Bool result models whether the Python
callback raises an exception on that invocation. -/
abbrev Callback := Nat → Nat → Nat → Bool

/-- Whether `progress_callback(a, b, c)` raises (no callback never does). -/
def cbRaises (cb : Option Callback) (a b c : Nat) : Bool :=
  match cb with
  | none => false
  | some f => f a b c

/-- The trace of invoking the callback, empty when none was supplied. -/
def cbEvent (cb : Option Callback) (a b c : Nat) : List Event :=
  match cb with
  | none => []
  | some _ => [Event.callback a b c]

/-- One parsed listing record, the dict built at src/api_crawler.py lines
530-541; field names translate the Korean keys 시도 (sido), 시군구
(sigungu), 읍면동 (dong), 지역 (location), 상호 (officeName), 대표자명
(representative), 전화번호 (phone), 모바일전화번호 (mobilePhones), 주소
(address) and `mem_no`. -/
structure OfficeData where
  sido : String
  sigungu : String
  dong : String
  location : String
  officeName : String
  representative : String
  phone : String
  mobilePhones : String
  address : String
  memNo : Option String
deriving DecidableEq, Repr

/-- The membership-check deduplication loop of the crawler
(`if phone not in mobile_phones: mobile_phones.append(phone)`,
src/api_crawler.py lines 346-349 and 522-525). -/
def pyDedup {α : Type} [DecidableEq α] (l : List α) : List α :=
  l.foldl (fun acc p => if p ∈ acc then acc else acc ++ [p]) []

/-- Keep the first occurrence of every value, in first-seen order (the
specification's description of deduplication, and the documented
`keep='first'` semantics of pandas `drop_duplicates`). -/
def dedupFirst {α : Type} [DecidableEq α] : List α → List α
  | [] => []
  | x :: xs => x :: (dedupFirst xs).filter (fun y => y ≠ x)

/-- Join with `", "` (src/api_crawler.py lines 352 and 538). -/
def joinComma (l : List String) : String :=
  String.intercalate ", " l

/-- The stripped text of every phone-bearing text node of a detail page, in
document order (the iteration of src/api_crawler.py lines 521-523);
empty when the detail fetch returned non-200 or raised. -/
def detailPhoneTexts (world : World) (m : String) : List String :=
  match world.detailPages m with
  | .ok d => (d.textNodes.filter containsPhone).map pyStrip
  | _ => []

/-- First line of Python `splitlines()` of an already-stripped string
(src/api_crawler.py lines 484-486). -/
def firstLineChars : List Char → List Char
  | [] => []
  | c :: cs => if c == '\n' || c == '\r' then [] else c :: firstLineChars cs

/-- Office name: first line of the stripped anchor text, stripped again. -/
def officeNameOf (raw : String) : String :=
  pyStrip (String.mk (firstLineChars (pyStrip raw).toList))

/-- Parsing and enriching one listing table row
(src/api_crawler.py lines 472-547).  A row with fewer than 5 cells yields
nothing and no request.  Otherwise: location from cell 0, office name and
`mem_no` from the anchor of cell 1, representative from cell 2, phone from
the anchor of cell 3, address from cell 4; when a `mem_no` was found the
detail page is fetched and its phone-bearing nodes collected.  The Python
loop reuses the variable `phone` (line 523), so after a successful detail
fetch that found at least one phone-bearing node the record's phone field
holds the stripped text of the LAST such node instead of the cell-3 value;
the deduplicated nodes joined with `", "` become the mobile-phones field. -/
def scrapeRow (world : World) (names : RegionNames) (row : Row) :
    Option OfficeData × List Event :=
  match row with
  | c0 :: c1 :: c2 :: c3 :: c4 :: _ =>
      let location := pyStrip c0.text
      let officeName :=
        match c1.anchor with
        | some a => officeNameOf a.text
        | none => ""
      let memNo :=
        match c1.anchor with
        | some a => memNoSearch a.href
        | none => none
      let representative := pyStrip c2.text
      let phoneCol :=
        match c3.anchor with
        | some a => pyStrip a.text
        | none => ""
      let address := pyStrip c4.text
      let texts :=
        match memNo with
        | some m => detailPhoneTexts world m
        | none => []
      let detailEvents :=
        match memNo with
        | some m => [Event.fetchDetail m]
        | none => []
      let phoneFinal :=
        match texts.getLast? with
        | some p => p
        | none => phoneCol
      (some { sido := names.sido, sigungu := names.sigungu, dong := names.dong,
              location := location, officeName := officeName,
              representative := representative, phone := phoneFinal,
              mobilePhones := joinComma (pyDedup texts), address := address,
              memNo := memNo },
       detailEvents)
  | _ => (none, [])

/-- Parse every row of a page in order, collecting records and requests
(the `for row in office_rows[1:]` loop body applied to a row list). -/
def scrapeRows (world : World) (names : RegionNames) :
    List Row → List OfficeData × List Event
  | [] => ([], [])
  | r :: rs =>
      let o := scrapeRow world names r
      let os := scrapeRows world names rs
      (o.1.toList ++ os.1, o.2 ++ os.2)

/-- The page-walk loop of `_scrape_office_data_from_html` for pages 2..T
(src/api_crawler.py lines 418-552, iterations with `current_page > 1`).
Each iteration first invokes the callback with the current page, the
discovered total and the number of rows accumulated so far; a raising
callback escapes to the function-level handler, which returns `[]`.  A
non-200 page fetch breaks the loop keeping the accumulated rows; a raising
fetch escapes to the handler, returning `[]`.  `fuel` counts the remaining
iterations (`T + 1 - cp` at entry). -/
def pagesFrom2 (world : World) (names : RegionNames) (cb : Option Callback)
    (T : Nat) : Nat → Nat → List OfficeData → List OfficeData × List Event
  | 0, _, acc => (acc, [])
  | fuel + 1, cp, acc =>
      if cp > T then (acc, [])
      else
        let cev := cbEvent cb cp T acc.length
        if cbRaises cb cp T acc.length then ([], cev)
        else
          match world.listingPages cp with
          | .raise => ([], cev ++ [Event.fetchListing cp])
          | .badStatus _ => (acc, cev ++ [Event.fetchListing cp])
          | .ok page =>
              let pr := scrapeRows world names (page.rows.drop 1)
              let rest := pagesFrom2 world names cb T fuel (cp + 1) (acc ++ pr.1)
              (rest.1, cev ++ [Event.fetchListing cp] ++ pr.2 ++ rest.2)

/-- The method `_scrape_office_data_from_html`
(src/api_crawler.py lines 367-559).  Page 1 is fetched before the loop
(line 400); a non-200 or raising fetch returns `[]`.  The first loop
iteration invokes the callback with `(1, 1, 0)` — the total still holds
its initial value 1 — then discovers the real total from the same page-1
document and parses its rows; subsequent iterations run `pagesFrom2`. -/
def scrape_office_data_from_html (world : World) (names : RegionNames)
    (cb : Option Callback) : List OfficeData × List Event :=
  match world.listingPages 1 with
  | .raise => ([], [Event.fetchListing 1])
  | .badStatus _ => ([], [Event.fetchListing 1])
  | .ok page1 =>
      let cev := cbEvent cb 1 1 0
      if cbRaises cb 1 1 0 then ([], Event.fetchListing 1 :: cev)
      else
        let T := discoverTotalPages page1
        let pr := scrapeRows world names (page1.rows.drop 1)
        let rest := pagesFrom2 world names cb T (T - 1) 2 pr.1
        (rest.1, Event.fetchListing 1 :: (cev ++ pr.2 ++ rest.2))

/-- The second enrichment pass of `search_real_estate_offices`
(src/api_crawler.py lines 334-359): for a record with a `mem_no`, fetch its
detail page again and overwrite the mobile-phones field with the
deduplicated phone-bearing node texts; a non-200 or raising fetch leaves
the record unchanged.  The phone field is not touched here. -/
def updateDetail (world : World) (r : OfficeData) : OfficeData × List Event :=
  match r.memNo with
  | none => (r, [])
  | some m =>
      match world.detailPages m with
      | .ok d =>
          ({ r with mobilePhones :=
              joinComma (pyDedup ((d.textNodes.filter containsPhone).map pyStrip)) },
           [Event.fetchDetail m])
      | _ => (r, [Event.fetchDetail m])

/-- Apply the second enrichment pass to every record in order. -/
def detailPass (world : World) : List OfficeData → List OfficeData × List Event
  | [] => ([], [])
  | r :: rs =>
      let u := updateDetail world r
      let us := detailPass world rs
      (u.1 :: us.1, u.2 ++ us.2)

/-- The method `search_real_estate_offices` (src/api_crawler.py lines
283-365) after location-code resolution: call `get_total_pages` (which
issues its own page-1 request, line 323), invoke the callback with
`(0, total, 0)` (line 328; a raising callback escapes to the
function-level handler, returning False with the untouched empty result
list), run the HTML scrape, run the second detail pass, and return whether
the final record list is nonempty (line 361) together with that list and
the full request/callback trace. -/
def search_real_estate_offices (world : World) (names : RegionNames)
    (cb : Option Callback) : Bool × List OfficeData × List Event :=
  let T0 := get_total_pages (world.listingPages 1)
  let evs0 := Event.fetchListing 1 :: cbEvent cb 0 T0 0
  if cbRaises cb 0 T0 0 then (false, [], evs0)
  else
    let pr := scrape_office_data_from_html world names cb
    let fin := detailPass world pr.1
    (!fin.1.isEmpty, fin.1, evs0 ++ pr.2 ++ fin.2)

/-- The method `ApiRegionSearch.search` (src/api_region_search.py lines
113-151): on a False scrape result return `[]`; otherwise return the
records, exporting them only when an output file name was supplied and the
record list is nonempty (line 143).  The Bool reports whether the export
was performed. -/
def regionSearch (world : World) (names : RegionNames) (cb : Option Callback)
    (outputFile : Option String) : List OfficeData × Bool :=
  let res := search_real_estate_offices world names cb
  if res.1 then (res.2.1, outputFile.isSome && !res.2.1.isEmpty)
  else ([], false)

/-- The export row of `DataExporter.clean_data`: the eight columns of
src/data_exporter.py lines 53-56, in order. -/
structure ExportRow where
  sido : String
  sigungu : String
  dong : String
  officeName : String
  representative : String
  phone : String
  mobilePhones : String
  address : String
deriving DecidableEq, Repr

/-- Column selection of `clean_data` (src/data_exporter.py lines 52-60). -/
def projectRecord (r : OfficeData) : ExportRow :=
  { sido := r.sido, sigungu := r.sigungu, dong := r.dong,
    officeName := r.officeName, representative := r.representative,
    phone := r.phone, mobilePhones := r.mobilePhones, address := r.address }

/-- The method `DataExporter.clean_data` (src/data_exporter.py lines
28-66): empty input yields an empty frame; otherwise
`df.drop_duplicates()` removes later exact full-row duplicates over ALL
fields (including 지역 and `mem_no`, since column selection happens
after), `fillna` is a no-op on string fields, and the eight export columns
are selected. -/
def clean_data (data : List OfficeData) : List ExportRow :=
  if data.isEmpty then []
  else (dedupFirst data).map projectRecord

/-- Events that are progress-callback invocations. -/
def isCbInvocation : Event → Bool
  | .callback _ _ _ => true
  | _ => false

/-- The callback-invocation subsequence of a trace. -/
def callbackEvents (evs : List Event) : List Event :=
  evs.filter isCbInvocation

/-- Events that are detail-page requests. -/
def isDetailFetch : Event → Bool
  | .fetchDetail _ => true
  | _ => false

/-- Number of detail-page requests in a trace. -/
def countDetail (evs : List Event) : Nat :=
  evs.countP isDetailFetch

/-- Events that are listing requests for page `p`. -/
def isListingFetchAt (p : Nat) : Event → Bool
  | .fetchListing q => q == p
  | _ => false

/-- Number of listing requests for page `p` in a trace. -/
def countListingAt (evs : List Event) (p : Nat) : Nat :=
  evs.countP (isListingFetchAt p)

/-- Number of records carrying a `mem_no`. -/
def memCount (rs : List OfficeData) : Nat :=
  rs.countP (fun r => r.memNo.isSome)

/-- Records of page `p` of a world, as the scrape parses them. -/
def pageRecords (world : World) (names : RegionNames) (p : Nat) :
    List OfficeData :=
  match world.listingPages p with
  | .ok page => (scrapeRows world names (page.rows.drop 1)).1
  | _ => []

/-- Rows accumulated after pages 1..n are processed. -/
def accThrough (world : World) (names : RegionNames) : Nat → Nat
  | 0 => 0
  | n + 1 => accThrough world names n + (pageRecords world names (n + 1)).length

/-- The page numbers n, n+1, ..., n+k-1. -/
def pageSeq : Nat → Nat → List Nat
  | _, 0 => []
  | s, k + 1 => s :: pageSeq (s + 1) k

/-- Region names used by the concrete test inputs. -/
def sampleNames : RegionNames := { sido := "Seoul", sigungu := "Gangnam", dong := "" }

/-- A column-3 anchor carrying the listing-table phone number. -/
def phoneAnchor : Anchor := { text := "02-000-0000", href := "" }

/-- A column-1 anchor whose href matches `moveDetail\('(\d+)',` with the
digit group `123`. -/
def nameAnchor : Anchor :=
  { text := "Foo Realty",
    href := String.mk (moveDetailPat ++ ['1', '2', '3'] ++ moveDetailClose) }

/-- A well-formed listing row (5 cells) whose record has `mem_no` 123. -/
def sampleRow : Row :=
  [ { text := " Gangnam ", anchor := none },
    { text := "", anchor := some nameAnchor },
    { text := "Kim", anchor := none },
    { text := "", anchor := some phoneAnchor },
    { text := "Addr 1", anchor := none } ]

/-- A well-formed listing row (5 cells) without any anchors: its record
has no `mem_no`, so no detail request is issued for it. -/
def rowNoId : Row :=
  [ { text := "Mapo", anchor := none },
    { text := "NoLink Realty", anchor := none },
    { text := "Lee", anchor := none },
    { text := "", anchor := none },
    { text := "Addr 2", anchor := none } ]

/-- The header row that the scrape skips. -/
def headerRow : Row := [{ text := "h", anchor := none }]

/-- A single-page listing document with one data row (`sampleRow`). -/
def samplePage : ListingPage :=
  { rows := [headerRow, sampleRow], paginationLinks := [] }

/-- A single-page listing document with two anchor-free data rows. -/
def samplePage2 : ListingPage :=
  { rows := [headerRow, rowNoId, rowNoId], paginationLinks := [] }

/-- A detail page whose sole text node is a mobile phone number. -/
def sampleDetail : DetailPage := { textNodes := ["010-1234-5678"] }

/-- Environment: every listing request returns `samplePage`, every detail
request returns `sampleDetail`. -/
def sampleWorld : World :=
  { listingPages := fun _ => .ok samplePage, detailPages := fun _ => .ok sampleDetail }

/-- Environment like `sampleWorld` but every detail request gets HTTP 404,
so enrichment never succeeds. -/
def noDetailWorld : World :=
  { listingPages := fun _ => .ok samplePage, detailPages := fun _ => .badStatus 404 }

/-- Environment serving `samplePage2`; detail requests are never issued
because its rows carry no `mem_no`. -/
def sampleWorld2 : World :=
  { listingPages := fun _ => .ok samplePage2, detailPages := fun _ => .badStatus 404 }

/-- A callback that raises on every invocation. -/
def cbTrue : Callback := fun _ _ _ => true

/-- A callback that never raises. -/
def cbFalse : Callback := fun _ _ _ => false

/-- A record with `mem_no` 9 and empty fields, used to exercise the detail
enrichment pass in isolation. -/
def recC6 : OfficeData :=
  { sido := "", sigungu := "", dong := "", location := "", officeName := "",
    representative := "", phone := "", mobilePhones := "", address := "",
    memNo := some "9" }

/-- Environment whose detail page has one text node that CONTAINS a phone
number amid other text. -/
def telDetailWorld : World :=
  { listingPages := fun _ => .badStatus 404,
    detailPages := fun _ => .ok { textNodes := ["Tel: 02-123-4567"] } }

/-- Environment whose detail page contains `02-123-4567` twice and
`010-1234-5678` once, each as its own text node. -/
def dupDetailWorld : World :=
  { listingPages := fun _ => .badStatus 404,
    detailPages := fun _ =>
      .ok { textNodes := ["02-123-4567", "010-1234-5678", "02-123-4567"] } }

/-- C1: pagination discovery returns 1 on a page without pagination
controls and on a raised fetch, and never a value below 1; in particular a
non-success HTTP status also yields 1.  The code refutes the last part:
`get_total_pages` returns 0 when the fetch completes with a non-200
status (src/api_crawler.py line 245). -/
theorem C1_counterexample :
    get_total_pages (FetchOutcome.badStatus 500) ≠ 1 ∧
    get_total_pages (FetchOutcome.badStatus 500) < 1 := by
  decide

/-- C1 (amended): `get_total_pages` returns 1 whenever the fetched page has
no pagination controls and whenever the fetch raises an exception, but it
returns 0 — a value below 1 — whenever the fetch completes with a
non-success HTTP status. -/
theorem C1_amended (page : ListingPage) (h : page.paginationLinks = []) (s : Nat) :
    get_total_pages (FetchOutcome.ok page) = 1 ∧
    get_total_pages FetchOutcome.raise = 1 ∧
    get_total_pages (FetchOutcome.badStatus s) = 0 := by
  refine ⟨?_, rfl, rfl⟩
  simp [get_total_pages, get_total_pages_of_page, h]

/-- C1 witness: the amended statement evaluated on a concrete page with no
pagination controls and status 500. -/
theorem C1_witness :
    (ListingPage.mk [] []).paginationLinks = [] ∧
    (get_total_pages (FetchOutcome.ok (ListingPage.mk [] [])) = 1 ∧
      get_total_pages FetchOutcome.raise = 1 ∧
      get_total_pages (FetchOutcome.badStatus 500) = 0) :=
  ⟨rfl, C1_amended (ListingPage.mk [] []) rfl 500⟩

/-- One step of the Python membership-dedup loop. -/
theorem pyDedup_foldl_eq {α : Type} [DecidableEq α] (l : List α) :
    ∀ acc : List α,
      l.foldl (fun acc p => if p ∈ acc then acc else acc ++ [p]) acc =
        acc ++ (dedupFirst l).filter (fun y => y ∉ acc) := by
  induction l with
  | nil => intro acc; simp [dedupFirst]
  | cons x xs ih =>
      intro acc
      by_cases hx : x ∈ acc
      · simp only [List.foldl_cons, if_pos hx, ih, dedupFirst, List.filter_cons]
        have hyx : (decide (x ∉ acc)) = false := by simp [hx]
        simp only [hyx, Bool.false_eq_true, if_neg, List.filter_filter]
        congr 1
        refine List.filter_congr (fun y _ => ?_)
        by_cases hy : y ∈ acc
        · simp [hy]
        · have : y ≠ x := fun hxy => hy (hxy ▸ hx)
          simp [hy, this]
      · simp only [List.foldl_cons, if_neg hx, ih, dedupFirst, List.filter_cons]
        have hyx : (decide (x ∉ acc)) = true := by simp [hx]
        simp only [hyx, if_pos, List.filter_filter]
        rw [List.append_assoc]
        simp only [List.singleton_append]
        congr 2
        refine List.filter_congr (fun y _ => ?_)
        by_cases hy : y ∈ acc
        · simp [hy]
        · by_cases hxy : y = x <;> simp [hy, hxy]

/-- The crawler's membership-dedup loop computes first-seen
deduplication. -/
theorem pyDedup_eq_dedupFirst {α : Type} [DecidableEq α] (l : List α) :
    pyDedup l = dedupFirst l := by
  have h := pyDedup_foldl_eq l []
  simpa [pyDedup, List.filter_congr] using h

/-- First-seen deduplication returns a subsequence of its input. -/
theorem dedupFirst_sublist {α : Type} [DecidableEq α] (l : List α) :
    (dedupFirst l).Sublist l := by
  induction l with
  | nil => simp [dedupFirst]
  | cons x xs ih =>
      simp only [dedupFirst]
      exact List.Sublist.cons₂ x ((List.filter_sublist _).trans ih)

/-- First-seen deduplication keeps every value of the input. -/
theorem dedupFirst_mem {α : Type} [DecidableEq α] (l : List α) (y : α) :
    y ∈ dedupFirst l ↔ y ∈ l := by
  constructor
  · exact fun h => (dedupFirst_sublist l).subset h
  · intro h
    induction l with
    | nil => simp at h
    | cons x xs ih =>
        simp only [dedupFirst]
        rcases List.mem_cons.mp h with h | h
        · exact h ▸ List.mem_cons_self _ _
        · by_cases hxy : y = x
          · exact hxy ▸ List.mem_cons_self _ _
          · exact List.mem_cons_of_mem _
              (List.mem_filter.mpr ⟨ih h, by simp [hxy]⟩)

/-- First-seen deduplication leaves no duplicates. -/
theorem dedupFirst_nodup {α : Type} [DecidableEq α] (l : List α) :
    (dedupFirst l).Nodup := by
  induction l with
  | nil => simp [dedupFirst]
  | cons x xs ih =>
      simp only [dedupFirst]
      refine List.nodup_cons.mpr ⟨fun hmem => ?_, ih.filter _⟩
      have := (List.mem_filter.mp hmem).2
      simp at this

/-- A row with fewer than 5 cells yields no record and issues no
request. -/
theorem scrapeRow_short (w : World) (n : RegionNames) (row : Row)
    (h : row.length < 5) : scrapeRow w n row = (none, []) := by
  rcases row with _ | ⟨a, _ | ⟨b, _ | ⟨c, _ | ⟨d, _ | ⟨e, rest⟩⟩⟩⟩⟩
  · rfl
  · rfl
  · rfl
  · rfl
  · rfl
  · exfalso; simp [List.length_cons] at h; omega

/-- Row parsing: the detail-request count matches the produced record's
`mem_no` presence, every emitted event is a detail request, and the number
of produced records is 1 exactly when the row has at least 5 cells. -/
theorem scrapeRow_spec (w : World) (n : RegionNames) (row : Row) :
    countDetail (scrapeRow w n row).2 = memCount (scrapeRow w n row).1.toList ∧
    (∀ e ∈ (scrapeRow w n row).2, isDetailFetch e = true) ∧
    (scrapeRow w n row).1.toList.length = if 5 ≤ row.length then 1 else 0 := by
  rcases row with _ | ⟨c0, _ | ⟨c1, _ | ⟨c2, _ | ⟨c3, _ | ⟨c4, rest⟩⟩⟩⟩⟩
  · simp [scrapeRow, countDetail, memCount]
  · simp [scrapeRow, countDetail, memCount]
  · simp [scrapeRow, countDetail, memCount]
  · simp [scrapeRow, countDetail, memCount]
  · simp [scrapeRow, countDetail, memCount]
  · rcases h1 : c1.anchor with _ | a
    · simp [scrapeRow, h1, countDetail, memCount, List.length_cons]
    · rcases h2 : memNoSearch a.href with _ | m
      · simp [scrapeRow, h1, h2, countDetail, memCount, List.length_cons]
      · simp [scrapeRow, h1, h2, countDetail, memCount, isDetailFetch,
          List.length_cons]

/-- A detail-request event is not a callback invocation. -/
theorem detail_not_cb (e : Event) (h : isDetailFetch e = true) :
    isCbInvocation e = false := by
  cases e <;> simp_all [isDetailFetch, isCbInvocation]

/-- A detail-request event is not a listing request. -/
theorem detail_not_listing (e : Event) (p : Nat) (h : isDetailFetch e = true) :
    isListingFetchAt p e = false := by
  cases e <;> simp_all [isDetailFetch, isListingFetchAt]

/-- Page parsing: detail-request count matches the records carrying a
`mem_no`, every emitted event is a detail request, and the number of
records equals the number of rows with at least 5 cells. -/
theorem scrapeRows_spec (w : World) (n : RegionNames) (rows : List Row) :
    countDetail (scrapeRows w n rows).2 = memCount (scrapeRows w n rows).1 ∧
    (∀ e ∈ (scrapeRows w n rows).2, isDetailFetch e = true) ∧
    (scrapeRows w n rows).1.length = rows.countP (fun r => decide (5 ≤ r.length)) := by
  induction rows with
  | nil => simp [scrapeRows, countDetail, memCount]
  | cons r rs ih =>
      obtain ⟨ihc, ihd, ihl⟩ := ih
      obtain ⟨rc, rd, rl⟩ := scrapeRow_spec w n r
      refine ⟨?_, ?_, ?_⟩
      · simp only [scrapeRows, countDetail, memCount, List.countP_append]
        simpa [countDetail, memCount] using congrArg₂ (· + ·) rc ihc
      · intro e he
        simp only [scrapeRows, List.mem_append] at he
        rcases he with he | he
        · exact rd e he
        · exact ihd e he
      · simp only [scrapeRows, List.length_append, List.countP_cons, rl, ihl]
        rcases Nat.decLe 5 r.length with h | h <;> simp [h] <;> omega

/-- The trace of page parsing contains no callback invocation and no
listing request. -/
theorem scrapeRows_trace_clean (w : World) (n : RegionNames) (rows : List Row)
    (p : Nat) :
    callbackEvents (scrapeRows w n rows).2 = [] ∧
    countListingAt (scrapeRows w n rows).2 p = 0 := by
  obtain ⟨-, hd, -⟩ := scrapeRows_spec w n rows
  constructor
  · exact List.filter_eq_nil.mpr fun e he => by
      simp [detail_not_cb e (hd e he)]
  · exact List.countP_eq_zero.mpr fun e he => by
      simp [detail_not_listing e p (hd e he)]

/-- A callback-invocation trace contains no detail request and no listing
request. -/
theorem cbEvent_trace_clean (cb : Option Callback) (a b c p : Nat) :
    countDetail (cbEvent cb a b c) = 0 ∧
    countListingAt (cbEvent cb a b c) p = 0 ∧
    callbackEvents (cbEvent cb a b c) =
      (match cb with | none => [] | some _ => [Event.callback a b c]) := by
  cases cb <;>
    simp [cbEvent, countDetail, countListingAt, callbackEvents,
      isDetailFetch, isListingFetchAt, isCbInvocation]

/-- Unfolding of the page loop when the fuel is exhausted. -/
theorem pagesFrom2_zero (world : World) (names : RegionNames)
    (cb : Option Callback) (T cp : Nat) (acc : List OfficeData) :
    pagesFrom2 world names cb T 0 cp acc = (acc, []) := rfl

/-- Unfolding of the page loop when the current page exceeds the total. -/
theorem pagesFrom2_step_gt (world : World) (names : RegionNames)
    (cb : Option Callback) (T fuel cp : Nat) (acc : List OfficeData)
    (hgt : cp > T) :
    pagesFrom2 world names cb T (fuel + 1) cp acc = (acc, []) := by
  simp [pagesFrom2, hgt]

/-- Unfolding of the page loop when the callback raises. -/
theorem pagesFrom2_step_cbRaise (world : World) (names : RegionNames)
    (cb : Option Callback) (T fuel cp : Nat) (acc : List OfficeData)
    (hgt : ¬cp > T) (hcb : cbRaises cb cp T acc.length = true) :
    pagesFrom2 world names cb T (fuel + 1) cp acc =
      ([], cbEvent cb cp T acc.length) := by
  simp [pagesFrom2, hgt, hcb]

/-- Unfolding of the page loop when the page fetch raises. -/
theorem pagesFrom2_step_raise (world : World) (names : RegionNames)
    (cb : Option Callback) (T fuel cp : Nat) (acc : List OfficeData)
    (hgt : ¬cp > T) (hcb : cbRaises cb cp T acc.length = false)
    (hw : world.listingPages cp = FetchOutcome.raise) :
    pagesFrom2 world names cb T (fuel + 1) cp acc =
      ([], cbEvent cb cp T acc.length ++ [Event.fetchListing cp]) := by
  simp [pagesFrom2, hgt, hcb, hw]

/-- Unfolding of the page loop when the page fetch returns non-200. -/
theorem pagesFrom2_step_bad (world : World) (names : RegionNames)
    (cb : Option Callback) (T fuel cp : Nat) (acc : List OfficeData) (s : Nat)
    (hgt : ¬cp > T) (hcb : cbRaises cb cp T acc.length = false)
    (hw : world.listingPages cp = FetchOutcome.badStatus s) :
    pagesFrom2 world names cb T (fuel + 1) cp acc =
      (acc, cbEvent cb cp T acc.length ++ [Event.fetchListing cp]) := by
  simp [pagesFrom2, hgt, hcb, hw]

/-- Unfolding of the page loop on a successful page fetch. -/
theorem pagesFrom2_step_ok (world : World) (names : RegionNames)
    (cb : Option Callback) (T fuel cp : Nat) (acc : List OfficeData)
    (page : ListingPage)
    (hgt : ¬cp > T) (hcb : cbRaises cb cp T acc.length = false)
    (hw : world.listingPages cp = FetchOutcome.ok page) :
    pagesFrom2 world names cb T (fuel + 1) cp acc =
      ((pagesFrom2 world names cb T fuel (cp + 1)
          (acc ++ (scrapeRows world names (page.rows.drop 1)).1)).1,
        cbEvent cb cp T acc.length ++ [Event.fetchListing cp] ++
          (scrapeRows world names (page.rows.drop 1)).2 ++
          (pagesFrom2 world names cb T fuel (cp + 1)
            (acc ++ (scrapeRows world names (page.rows.drop 1)).1)).2) := by
  simp [pagesFrom2, hgt, hcb, hw]

/-- The page loop only appends records, and when no listing fetch raises
and the callback never raises, its detail-request count equals the number
of appended records that carry a `mem_no`. -/
theorem pagesFrom2_count (world : World) (names : RegionNames)
    (cb : Option Callback) (T : Nat)
    (hL : ∀ p, world.listingPages p ≠ FetchOutcome.raise)
    (hf : ∀ a b c, cbRaises cb a b c = false) :
    ∀ (fuel cp : Nat) (acc : List OfficeData),
      ∃ new, (pagesFrom2 world names cb T fuel cp acc).1 = acc ++ new ∧
        countDetail (pagesFrom2 world names cb T fuel cp acc).2 = memCount new := by
  intro fuel
  induction fuel with
  | zero =>
      intro cp acc
      exact ⟨[], by simp [pagesFrom2_zero, memCount, countDetail]⟩
  | succ fuel ih =>
      intro cp acc
      by_cases hgt : cp > T
      · exact ⟨[], by simp [pagesFrom2_step_gt _ _ _ _ _ _ _ hgt, memCount, countDetail]⟩
      · rcases hw : world.listingPages cp with page | s | _
        · obtain ⟨new', h1, h2⟩ :=
            ih (cp + 1) (acc ++ (scrapeRows world names (page.rows.drop 1)).1)
          rw [pagesFrom2_step_ok world names cb T fuel cp acc page hgt (hf _ _ _) hw]
          refine ⟨(scrapeRows world names (page.rows.drop 1)).1 ++ new', ?_, ?_⟩
          · rw [h1, List.append_assoc]
          · obtain ⟨hc, -, -⟩ := scrapeRows_spec world names (page.rows.drop 1)
            obtain ⟨hcb, -, -⟩ := cbEvent_trace_clean cb cp T acc.length 1
            simp only [countDetail, List.countP_append, memCount] at hc hcb h2 ⊢
            have hone : List.countP isDetailFetch [Event.fetchListing cp] = 0 := by
              simp [isDetailFetch]
            omega
        · rw [pagesFrom2_step_bad world names cb T fuel cp acc s hgt (hf _ _ _) hw]
          refine ⟨[], by simp, ?_⟩
          obtain ⟨hcb, -, -⟩ := cbEvent_trace_clean cb cp T acc.length 1
          simp only [countDetail, List.countP_append, memCount] at hcb ⊢
          have hone : List.countP isDetailFetch [Event.fetchListing cp] = 0 := by
            simp [isDetailFetch]
          simp [hcb, hone]
        · exact absurd hw (hL cp)

/-- The page loop never requests page 1 when it starts at page 2 or
later. -/
theorem pagesFrom2_no_listing1 (world : World) (names : RegionNames)
    (cb : Option Callback) (T : Nat) :
    ∀ (fuel cp : Nat) (acc : List OfficeData), 2 ≤ cp →
      countListingAt (pagesFrom2 world names cb T fuel cp acc).2 1 = 0 := by
  intro fuel
  induction fuel with
  | zero => intro cp acc _; simp [pagesFrom2_zero, countListingAt]
  | succ fuel ih =>
      intro cp acc hcp
      have hone : List.countP (isListingFetchAt 1) [Event.fetchListing cp] = 0 := by
        have : isListingFetchAt 1 (Event.fetchListing cp) = false := by
          simp [isListingFetchAt]; omega
        simp [this]
      obtain ⟨-, hcb, -⟩ := cbEvent_trace_clean cb cp T acc.length 1
      simp only [countListingAt] at hcb
      by_cases hgt : cp > T
      · simp [pagesFrom2_step_gt _ _ _ _ _ _ _ hgt, countListingAt]
      · rcases hr : cbRaises cb cp T acc.length with - | -
        · rcases hw : world.listingPages cp with page | s | _
          · rw [pagesFrom2_step_ok world names cb T fuel cp acc page hgt hr hw]
            obtain ⟨-, hl2⟩ := scrapeRows_trace_clean world names (page.rows.drop 1) 1
            have hrest := ih (cp + 1)
              (acc ++ (scrapeRows world names (page.rows.drop 1)).1) (by omega)
            simp only [countListingAt, List.countP_append] at hl2 hrest ⊢
            omega
          · rw [pagesFrom2_step_bad world names cb T fuel cp acc s hgt hr hw]
            simp only [countListingAt, List.countP_append]
            omega
          · rw [pagesFrom2_step_raise world names cb T fuel cp acc hgt hr hw]
            simp only [countListingAt, List.countP_append]
            omega
        · rw [pagesFrom2_step_cbRaise world names cb T fuel cp acc hgt hr]
          simpa [countListingAt] using hcb

/-- The second enrichment pass on a record: one detail request exactly
when it carries a `mem_no`, which is preserved. -/
theorem updateDetail_spec (w : World) (r : OfficeData) :
    countDetail (updateDetail w r).2 = (if r.memNo.isSome then 1 else 0) ∧
    (updateDetail w r).1.memNo = r.memNo ∧
    (∀ e ∈ (updateDetail w r).2, isDetailFetch e = true) := by
  rcases hm : r.memNo with - | m
  · simp [updateDetail, hm, countDetail]
  · rcases hw : w.detailPages m with d | s | _ <;>
      simp [updateDetail, hm, hw, countDetail, isDetailFetch]

/-- The second enrichment pass: one detail request per `mem_no`-carrying
record, record count and `mem_no` count preserved, and every emitted event
is a detail request. -/
theorem detailPass_spec (w : World) (rs : List OfficeData) :
    countDetail (detailPass w rs).2 = memCount rs ∧
    memCount (detailPass w rs).1 = memCount rs ∧
    (detailPass w rs).1.length = rs.length ∧
    (∀ e ∈ (detailPass w rs).2, isDetailFetch e = true) := by
  induction rs with
  | nil => simp [detailPass, countDetail, memCount]
  | cons r rs ih =>
      obtain ⟨ihc, ihm, ihl, ihd⟩ := ih
      obtain ⟨uc, um, ud⟩ := updateDetail_spec w r
      refine ⟨?_, ?_, ?_, ?_⟩
      · simp only [countDetail] at uc
        simp only [detailPass, countDetail, memCount, List.countP_append,
          List.countP_cons] at ihc ⊢
        rw [uc]
        rw [ihc]
        rcases h : r.memNo.isSome with - | - <;> simp [h] <;> omega
      · simp only [detailPass, memCount, List.countP_cons] at ihm ⊢
        simp [um, ihm]
      · simp only [detailPass, List.length_cons, ihl]
      · intro e he
        simp only [detailPass, List.mem_append] at he
        rcases he with he | he
        · exact ud e he
        · exact ihd e he

/-- The full-page scrape: its record list and trace satisfy the detail
count law when no listing fetch raises and the callback never raises. -/
theorem scrape_detailCount (world : World) (names : RegionNames)
    (cb : Option Callback)
    (hL : ∀ p, world.listingPages p ≠ FetchOutcome.raise)
    (hf : ∀ a b c, cbRaises cb a b c = false) :
    countDetail (scrape_office_data_from_html world names cb).2 =
      memCount (scrape_office_data_from_html world names cb).1 := by
  rcases hw : world.listingPages 1 with page | s | _
  · simp only [scrape_office_data_from_html, hw, hf, Bool.false_eq_true, if_false]
    obtain ⟨new, h1, h2⟩ := pagesFrom2_count world names cb
      (discoverTotalPages page) hL hf (discoverTotalPages page - 1) 2
      (scrapeRows world names (page.rows.drop 1)).1
    obtain ⟨hc, -, -⟩ := scrapeRows_spec world names (page.rows.drop 1)
    obtain ⟨hcb, -, -⟩ := cbEvent_trace_clean cb 1 1 0 1
    rw [h1]
    simp only [countDetail, memCount, List.countP_append, List.countP_cons] at hc hcb h2 ⊢
    have hone : isDetailFetch (Event.fetchListing 1) = false := rfl
    simp only [hone, Bool.false_eq_true, if_false]
    omega
  · simp [scrape_office_data_from_html, hw, countDetail, memCount, isDetailFetch]
  · exact absurd hw (hL 1)

/-- C3 (amended): for a complete scrape in which no listing fetch raises
and the callback never raises, the detail endpoint is requested exactly
twice per `mem_no`-carrying returned record — once while parsing its row
and once more in the post-scrape enrichment pass — so the trace holds
twice as many detail requests as there are such records. -/
theorem C3_amended (world : World) (names : RegionNames)
    (cb : Option Callback)
    (hL : ∀ p, world.listingPages p ≠ FetchOutcome.raise)
    (hf : ∀ a b c, cbRaises cb a b c = false) :
    countDetail (search_real_estate_offices world names cb).2.2 =
      2 * memCount (search_real_estate_offices world names cb).2.1 := by
  simp only [search_real_estate_offices, hf, Bool.false_eq_true, if_false]
  have hs := scrape_detailCount world names cb hL hf
  obtain ⟨dc, dm, -, -⟩ :=
    detailPass_spec world (scrape_office_data_from_html world names cb).1
  obtain ⟨hcb, -, -⟩ := cbEvent_trace_clean cb 0
    (get_total_pages (world.listingPages 1)) 0 1
  simp only [countDetail, memCount, List.countP_append, List.countP_cons] at hs dc dm hcb ⊢
  have hone : isDetailFetch (Event.fetchListing 1) = false := rfl
  simp only [hone, Bool.false_eq_true, if_false]
  omega

/-- The full-page scrape requests page 1 exactly once: the pre-loop fetch;
the loop starts at page 2 and never revisits page 1. -/
theorem scrape_listing1 (world : World) (names : RegionNames)
    (cb : Option Callback) :
    countListingAt (scrape_office_data_from_html world names cb).2 1 = 1 := by
  have hone : isListingFetchAt 1 (Event.fetchListing 1) = true := rfl
  rcases hw : world.listingPages 1 with page | s | _
  · by_cases hcb : cbRaises cb 1 1 0
    · obtain ⟨-, hc, -⟩ := cbEvent_trace_clean cb 1 1 0 1
      simp only [scrape_office_data_from_html, hw, hcb, if_pos, countListingAt,
        List.countP_cons] at hc ⊢
      simp [hc, hone]
    · have hcb' : cbRaises cb 1 1 0 = false := by simpa using hcb
      obtain ⟨-, hc, -⟩ := cbEvent_trace_clean cb 1 1 0 1
      obtain ⟨-, hl2⟩ := scrapeRows_trace_clean world names (page.rows.drop 1) 1
      have hrest := pagesFrom2_no_listing1 world names cb (discoverTotalPages page)
        (discoverTotalPages page - 1) 2 (scrapeRows world names (page.rows.drop 1)).1
        (by omega)
      simp only [scrape_office_data_from_html, hw, hcb', Bool.false_eq_true,
        if_false, countListingAt, List.countP_cons, List.countP_append]
        at hc hl2 hrest ⊢
      have hif : (if isListingFetchAt 1 (Event.fetchListing 1) = true then 1 else 0) = 1 := rfl
      omega
  · simp [scrape_office_data_from_html, hw, countListingAt, List.countP_cons, hone]
  · simp [scrape_office_data_from_html, hw, countListingAt, List.countP_cons, hone]

/-- The complete search requests page 1 exactly twice when the callback
never raises: once inside `get_total_pages` and once inside the scrape. -/
theorem search_listing1 (world : World) (names : RegionNames)
    (cb : Option Callback) (hf : ∀ a b c, cbRaises cb a b c = false) :
    countListingAt (search_real_estate_offices world names cb).2.2 1 = 2 := by
  have hone : isListingFetchAt 1 (Event.fetchListing 1) = true := rfl
  have hs := scrape_listing1 world names cb
  obtain ⟨-, -, -, hd⟩ :=
    detailPass_spec world (scrape_office_data_from_html world names cb).1
  have hdl : countListingAt
      (detailPass world (scrape_office_data_from_html world names cb).1).2 1 = 0 :=
    List.countP_eq_zero.mpr fun e he => by simp [detail_not_listing e 1 (hd e he)]
  obtain ⟨-, hc, -⟩ := cbEvent_trace_clean cb 0
    (get_total_pages (world.listingPages 1)) 0 1
  simp only [search_real_estate_offices, hf, Bool.false_eq_true, if_false,
    countListingAt, List.countP_cons, List.countP_append] at hs hdl hc ⊢
  simp [hs, hdl, hc, hone]

/-- Callback trace of the page loop: when pages 2..T all fetch
successfully and the callback never raises, page n's invocation happens at
the top of its iteration carrying the count of rows accumulated through
page n-1. -/
theorem pagesFrom2_callbacks (world : World) (names : RegionNames)
    (f : Callback) (T : Nat)
    (hok : ∀ p, 2 ≤ p → p ≤ T → ∃ pg, world.listingPages p = FetchOutcome.ok pg)
    (hf : ∀ a b c, f a b c = false) :
    ∀ (fuel cp : Nat) (acc : List OfficeData), 2 ≤ cp → cp + fuel = T + 1 →
      acc.length = accThrough world names (cp - 1) →
      callbackEvents (pagesFrom2 world names (some f) T fuel cp acc).2 =
        (pageSeq cp fuel).map
          (fun n => Event.callback n T (accThrough world names (n - 1))) := by
  intro fuel
  induction fuel with
  | zero =>
      intro cp acc _ _ _
      simp [pagesFrom2_zero, pageSeq, callbackEvents]
  | succ fuel ih =>
      intro cp acc hcp hfe hacc
      have hgt : ¬cp > T := by omega
      have hcbf : cbRaises (some f) cp T acc.length = false := by
        simpa [cbRaises] using hf cp T acc.length
      obtain ⟨pg, hw⟩ := hok cp hcp (by omega)
      rw [pagesFrom2_step_ok world names (some f) T fuel cp acc pg hgt hcbf hw]
      have hrows : (acc ++ (scrapeRows world names (pg.rows.drop 1)).1).length =
          accThrough world names (cp + 1 - 1) := by
        obtain ⟨k, rfl⟩ : ∃ k, cp = k + 1 := ⟨cp - 1, by omega⟩
        simp only [List.length_append, Nat.add_sub_cancel]
        have hpg : pageRecords world names (k + 1) =
            (scrapeRows world names (pg.rows.drop 1)).1 := by
          simp [pageRecords, hw]
        simp only [accThrough, ← hpg]
        simp only [Nat.add_sub_cancel] at hacc
        omega
      have hrest := ih (cp + 1)
        (acc ++ (scrapeRows world names (pg.rows.drop 1)).1)
        (by omega) (by omega) hrows
      have hclean := (scrapeRows_trace_clean world names (pg.rows.drop 1) 1).1
      simp only [callbackEvents, List.filter_append] at hclean hrest ⊢
      rw [hclean]
      have hcbe : List.filter isCbInvocation (cbEvent (some f) cp T acc.length) =
          [Event.callback cp T acc.length] := rfl
      have hfl : List.filter isCbInvocation [Event.fetchListing cp] = [] := rfl
      rw [hcbe, hfl, hrest, hacc]
      simp [pageSeq]

/-- C2: the claim says the record's phone field always equals the stripped
cell-3 anchor text, with the detail page only feeding the mobile-phones
field.  The code contradicts it: the enrichment loop reuses the variable
`phone` (src/api_crawler.py line 523), so a successful detail fetch
overwrites the phone field with its last phone-bearing node, here
`010-1234-5678` in place of the cell-3 value `02-000-0000`; only when the
detail fetch fails does the cell-3 value survive. -/
theorem C2_bug_eval :
    ((scrapeRow sampleWorld sampleNames sampleRow).1.map OfficeData.phone) =
      some "010-1234-5678" ∧
    ((scrapeRow noDetailWorld sampleNames sampleRow).1.map OfficeData.phone) =
      some "02-000-0000" ∧
    sampleRow.get? 3 = some { text := "", anchor := some phoneAnchor } ∧
    pyStrip phoneAnchor.text = "02-000-0000" := by
  decide

/-- C3: the claim says one detail request per `mem_no`-carrying record.
On a world with a single record (mem_no 123) the complete scrape issues
two detail requests for it. -/
theorem C3_counterexample :
    (search_real_estate_offices sampleWorld sampleNames none).2.1.map
      OfficeData.memNo = [some "123"] ∧
    (search_real_estate_offices sampleWorld sampleNames none).2.2.countP
      (fun e => decide (e = Event.fetchDetail "123")) = 2 := by
  decide

/-- C3 witness: the amended count law evaluated on the concrete
single-record world. -/
theorem C3_witness :
    (∀ p, sampleWorld.listingPages p ≠ FetchOutcome.raise) ∧
    (∀ a b c, cbRaises (none : Option Callback) a b c = false) ∧
    countDetail (search_real_estate_offices sampleWorld sampleNames none).2.2 =
      2 * memCount (search_real_estate_offices sampleWorld sampleNames none).2.1 :=
  ⟨fun p h => by simp [sampleWorld] at h, fun _ _ _ => rfl,
    C3_amended sampleWorld sampleNames none
      (fun p h => by simp [sampleWorld] at h) (fun _ _ _ => rfl)⟩

/-- C4: the claim says page 1 is requested exactly once per scrape.  On a
concrete world the complete scrape requests page 1 twice: once inside
`get_total_pages` and once inside the HTML scrape. -/
theorem C4_counterexample :
    countListingAt (search_real_estate_offices sampleWorld sampleNames none).2.2 1 = 2 ∧
    (2 : Nat) ≠ 1 := by
  decide

/-- C4 (amended): whenever the callback never raises, a complete scrape
requests page 1 exactly twice — `search_real_estate_offices` first calls
`get_total_pages`, which performs its own page-1 fetch, and the HTML
scrape then fetches page 1 again; within `_scrape_office_data_from_html`
itself page 1 is fetched exactly once and the page total is derived from
that same document. -/
theorem C4_amended (world : World) (names : RegionNames) (cb : Option Callback)
    (hf : ∀ a b c, cbRaises cb a b c = false) :
    countListingAt (search_real_estate_offices world names cb).2.2 1 = 2 ∧
    countListingAt (scrape_office_data_from_html world names cb).2 1 = 1 :=
  ⟨search_listing1 world names cb hf, scrape_listing1 world names cb⟩

/-- C4 witness: the amended request counts on the concrete world. -/
theorem C4_witness :
    (∀ a b c, cbRaises (none : Option Callback) a b c = false) ∧
    (countListingAt (search_real_estate_offices sampleWorld sampleNames none).2.2 1 = 2 ∧
      countListingAt (scrape_office_data_from_html sampleWorld sampleNames none).2 1 = 1) :=
  ⟨fun _ _ _ => rfl, C4_amended sampleWorld sampleNames none (fun _ _ _ => rfl)⟩

/-- C5: page parsing yields exactly one record per data row with at least
5 cells; a row with fewer than 5 cells is skipped without affecting the
rest of the page, so the record count equals the data-row count minus the
malformed-row count (parsing is a total function, so it never raises; the
only skip condition the code can exercise is the cell-count check, the
per-row exception handler being unreachable in this embedding). -/
theorem C5_confirmed (world : World) (names : RegionNames) (bad : Row)
    (rows : List Row) (h : bad.length < 5) :
    (scrapeRows world names rows).1.length =
      rows.countP (fun r => decide (5 ≤ r.length)) ∧
    scrapeRows world names (bad :: rows) = scrapeRows world names rows := by
  refine ⟨(scrapeRows_spec world names rows).2.2, ?_⟩
  simp [scrapeRows, scrapeRow_short world names bad h]

/-- C5 witness: the count law and the skip law evaluated on a concrete
malformed row and page. -/
theorem C5_witness :
    headerRow.length < 5 ∧
    ((scrapeRows sampleWorld sampleNames [sampleRow]).1.length =
        [sampleRow].countP (fun r => decide (5 ≤ r.length)) ∧
      scrapeRows sampleWorld sampleNames (headerRow :: [sampleRow]) =
        scrapeRows sampleWorld sampleNames [sampleRow]) :=
  ⟨by decide, C5_confirmed sampleWorld sampleNames headerRow [sampleRow] (by decide)⟩

/-- C6: the claim says the enriched mobile-phone field consists of the
phone-number-shaped substrings of the detail page.  The code keeps whole
stripped text NODES that merely contain such a substring: a node
`Tel: 02-123-4567` makes the field equal that entire text, which is not
phone-number-shaped. -/
theorem C6_counterexample :
    (updateDetail telDetailWorld recC6).1.mobilePhones = "Tel: 02-123-4567" ∧
    isPhoneShaped "Tel: 02-123-4567" = false := by
  decide

/-- C6 (amended): the enriched field is the stripped text of each
phone-bearing text node, deduplicated keeping the first occurrence of each
in first-seen order (the crawler's membership loop equals first-seen
deduplication) and joined with `", "`; in particular a detail page whose
nodes are `02-123-4567`, `010-1234-5678`, `02-123-4567` yields exactly
`02-123-4567, 010-1234-5678`. -/
theorem C6_amended :
    (∀ (l : List String), pyDedup l = dedupFirst l) ∧
    (updateDetail dupDetailWorld recC6).1.mobilePhones =
      "02-123-4567, 010-1234-5678" :=
  ⟨fun l => pyDedup_eq_dedupFirst l, by decide⟩

/-- C7: the claim says the callback for page n reports the row count
through page n after the page is processed.  On a one-page world with two
rows, the only page callback is `(1, 1, 0)` — issued at the top of the
iteration, before the rows are parsed, with the pre-page count 0 instead
of 2 (and with the pre-discovery total 1). -/
theorem C7_counterexample :
    (scrape_office_data_from_html sampleWorld2 sampleNames (some cbFalse)).1.length = 2 ∧
    callbackEvents
      (scrape_office_data_from_html sampleWorld2 sampleNames (some cbFalse)).2 =
      [Event.callback 1 1 0] ∧
    accThrough sampleWorld2 sampleNames 1 = 2 ∧
    Event.callback 1 1 0 ≠
      Event.callback 1 1 (accThrough sampleWorld2 sampleNames 1) := by
  decide

/-- C7 (amended): when every needed page fetch succeeds and the callback
never raises, the scrape invokes the callback exactly once per page n, at
the START of page n's iteration: for page 1 with `(1, 1, 0)` (discovery
has not yet run, so the reported total is the initial 1) and for each page
n ≥ 2 with `(n, totalPages, rows accumulated through page n-1)`. -/
theorem C7_amended (world : World) (names : RegionNames) (f : Callback)
    (page1 : ListingPage)
    (h1 : world.listingPages 1 = FetchOutcome.ok page1)
    (hok : ∀ p, 2 ≤ p → p ≤ discoverTotalPages page1 →
      ∃ pg, world.listingPages p = FetchOutcome.ok pg)
    (hf : ∀ a b c, f a b c = false) :
    callbackEvents (scrape_office_data_from_html world names (some f)).2 =
      Event.callback 1 1 0 ::
        (pageSeq 2 (discoverTotalPages page1 - 1)).map
          (fun n => Event.callback n (discoverTotalPages page1)
            (accThrough world names (n - 1))) := by
  have hcbf : cbRaises (some f) 1 1 0 = false := by
    simpa [cbRaises] using hf 1 1 0
  have e1 : isCbInvocation (Event.fetchListing 1) = false := rfl
  have e2 : List.filter isCbInvocation (cbEvent (some f) 1 1 0) =
      [Event.callback 1 1 0] := rfl
  have hclean := (scrapeRows_trace_clean world names (page1.rows.drop 1) 1).1
  simp only [scrape_office_data_from_html, h1, hcbf, Bool.false_eq_true, if_false]
  by_cases hT0 : discoverTotalPages page1 = 0
  · rw [hT0]
    simp only [Nat.zero_sub, pagesFrom2_zero]
    simp only [callbackEvents] at hclean ⊢
    simp only [List.filter_cons, e1, Bool.false_eq_true, if_false,
      List.filter_append, e2, hclean, pageSeq]
    simp
  · have hacc : (scrapeRows world names (page1.rows.drop 1)).1.length =
        accThrough world names (2 - 1) := by
      simp [accThrough, pageRecords, h1]
    have hrest := pagesFrom2_callbacks world names f (discoverTotalPages page1)
      hok hf (discoverTotalPages page1 - 1) 2
      (scrapeRows world names (page1.rows.drop 1)).1 (by omega) (by omega) hacc
    simp only [callbackEvents] at hclean hrest ⊢
    simp only [List.filter_cons, e1, Bool.false_eq_true, if_false,
      List.filter_append, e2, hclean, hrest]
    simp [hacc, accThrough, pageRecords]

/-- C7 witness: the amended callback trace evaluated on the concrete
single-page world. -/
theorem C7_witness :
    (∀ a b c, cbFalse a b c = false) ∧
    callbackEvents
      (scrape_office_data_from_html sampleWorld2 sampleNames (some cbFalse)).2 =
      Event.callback 1 1 0 ::
        (pageSeq 2 (discoverTotalPages samplePage2 - 1)).map
          (fun n => Event.callback n (discoverTotalPages samplePage2)
            (accThrough sampleWorld2 sampleNames (n - 1))) :=
  ⟨fun _ _ _ => rfl,
    C7_amended sampleWorld2 sampleNames cbFalse samplePage2 rfl
      (fun p hp hple => absurd (hp.trans hple) (by decide)) (fun _ _ _ => rfl)⟩

/-- C8: the claim says a raising callback must not abort the scrape and
accumulated rows are still returned.  On a one-page world with two rows,
an always-raising callback makes the scrape return the empty list, while
the same world without a callback yields both rows. -/
theorem C8_counterexample :
    (scrape_office_data_from_html sampleWorld2 sampleNames (some cbTrue)).1 = [] ∧
    (scrape_office_data_from_html sampleWorld2 sampleNames none).1.length = 2 := by
  decide

/-- C8 (amended): a callback exception aborts the page walk — the
function-level handler of `_scrape_office_data_from_html` catches it and
returns the empty list, discarding every accumulated row — although the
exception never escapes to the caller: `search_real_estate_offices`
reports failure (False) with an empty result list. -/
theorem C8_amended (world : World) (names : RegionNames) (f : Callback)
    (page1 : ListingPage)
    (h1 : world.listingPages 1 = FetchOutcome.ok page1)
    (h2 : f 1 1 0 = true) :
    (scrape_office_data_from_html world names (some f)).1 = [] ∧
    (search_real_estate_offices world names (some f)).1 = false ∧
    (search_real_estate_offices world names (some f)).2.1 = [] := by
  have hcb : cbRaises (some f) 1 1 0 = true := by
    simpa [cbRaises] using h2
  have hs : (scrape_office_data_from_html world names (some f)).1 = [] := by
    simp [scrape_office_data_from_html, h1, hcb]
  refine ⟨hs, ?_, ?_⟩
  · by_cases h0 : cbRaises (some f) 0 (get_total_pages (world.listingPages 1)) 0
    · simp [search_real_estate_offices, h0]
    · have h0' : cbRaises (some f) 0 (get_total_pages (world.listingPages 1)) 0
          = false := by simpa using h0
      simp [search_real_estate_offices, h0', hs, detailPass]
  · by_cases h0 : cbRaises (some f) 0 (get_total_pages (world.listingPages 1)) 0
    · simp [search_real_estate_offices, h0]
    · have h0' : cbRaises (some f) 0 (get_total_pages (world.listingPages 1)) 0
          = false := by simpa using h0
      simp [search_real_estate_offices, h0', hs, detailPass]

/-- C8 witness: the amended abort behaviour evaluated with an
always-raising callback on the concrete world. -/
theorem C8_witness :
    cbTrue 1 1 0 = true ∧
    ((scrape_office_data_from_html sampleWorld2 sampleNames (some cbTrue)).1 = [] ∧
      (search_real_estate_offices sampleWorld2 sampleNames (some cbTrue)).1 = false ∧
      (search_real_estate_offices sampleWorld2 sampleNames (some cbTrue)).2.1 = []) :=
  ⟨rfl, C8_amended sampleWorld2 sampleNames cbTrue samplePage2 rfl rfl⟩

/-- C9: export deduplication removes exactly the records whose every field
equals that of an earlier record — first occurrences survive in order
(`dedupFirst` is a duplicate-free subsequence containing exactly the input
values) — and two fully-identical records plus one distinct record export
as exactly 2 rows. -/
theorem C9_confirmed (data : List OfficeData) (r s : OfficeData) (h : r ≠ s) :
    (clean_data [r, r, s]).length = 2 ∧
    (dedupFirst data).Nodup ∧
    (∀ x : OfficeData, x ∈ dedupFirst data ↔ x ∈ data) ∧
    (dedupFirst data).Sublist data := by
  refine ⟨?_, dedupFirst_nodup data, fun x => dedupFirst_mem data x,
    dedupFirst_sublist data⟩
  have hsr : s ≠ r := fun e => h e.symm
  simp [clean_data, dedupFirst, h, hsr]

/-- C9 witness: the export count and deduplication laws evaluated on
concrete records. -/
theorem C9_witness :
    recC6 ≠ { recC6 with phone := "x" } ∧
    ((clean_data [recC6, recC6, { recC6 with phone := "x" }]).length = 2 ∧
      (dedupFirst [recC6, recC6]).Nodup ∧
      (∀ x : OfficeData, x ∈ dedupFirst [recC6, recC6] ↔ x ∈ [recC6, recC6]) ∧
      (dedupFirst [recC6, recC6]).Sublist [recC6, recC6]) :=
  ⟨by decide, C9_confirmed [recC6, recC6] recC6 { recC6 with phone := "x" } (by decide)⟩

/-- C10: `search_real_estate_offices` returns True exactly when the final
record list is nonempty — an empty-but-successful scrape is reported as
failure — and `ApiRegionSearch.search` collapses to an empty result with
no export exactly in that case. -/
theorem C10_confirmed (world : World) (names : RegionNames)
    (cb : Option Callback) (outputFile : Option String) :
    ((search_real_estate_offices world names cb).1 = true ↔
      (search_real_estate_offices world names cb).2.1 ≠ []) ∧
    (regionSearch world names cb outputFile = ([], false) ↔
      (search_real_estate_offices world names cb).2.1 = []) := by
  have hiff : (search_real_estate_offices world names cb).1 = true ↔
      (search_real_estate_offices world names cb).2.1 ≠ [] := by
    by_cases h0 : cbRaises cb 0 (get_total_pages (world.listingPages 1)) 0
    · simp [search_real_estate_offices, h0]
    · have h0' : cbRaises cb 0 (get_total_pages (world.listingPages 1)) 0 = false := by
        simpa using h0
      simp [search_real_estate_offices, h0']
  refine ⟨hiff, ?_, ?_⟩
  · intro h
    by_contra hne
    have hb := hiff.mpr hne
    simp [regionSearch, hb] at h
    exact hne h.1
  · intro h
    have hb : (search_real_estate_offices world names cb).1 = false := by
      cases hx : (search_real_estate_offices world names cb).1
      · rfl
      · exact absurd (hiff.mp hx) (by simp [h])
    simp [regionSearch, hb]
